import Mathlib

/-!
Shallow embedding of the order-synchronization and notification-scheduling
core of the freight-logistics bot repository.

Timestamps are modelled as `Int` seconds (Python `datetime` values become
absolute seconds; `timedelta(hours=h)` becomes `h * 3600`,
`timedelta(minutes=5)` becomes `300`, `timedelta(days=d)` becomes
`d * 86400`).  Container weights and volumes (Python `float`) are modelled
as `Rat`; every property below concerns which rows enter an aggregate, not
float rounding.  The relational store is modelled as a list of rows;
`query(...).first()` becomes `List.find?` and an in-place ORM mutation of
the found row becomes replacement of the first matching list entry.
-/

namespace Bot7

/-- Order status enumeration from `models.py` (`class OrderStatus`). -/
inductive OrderStatus where
  | NEW
  | IN_PROGRESS_CHN
  | IN_TRANSIT_CHN_IR
  | IN_PROGRESS_IR
  | IN_TRANSIT_IR_TKM
  | COMPLETED
  | CANCELLED
  deriving DecidableEq, Repr

/-- The active status subset listed in `database.py` (`get_active_orders`
and the `active_orders` filter of `get_statistics`). -/
def activeStatuses : List OrderStatus :=
  [OrderStatus.NEW, OrderStatus.IN_PROGRESS_CHN, OrderStatus.IN_TRANSIT_CHN_IR,
   OrderStatus.IN_PROGRESS_IR, OrderStatus.IN_TRANSIT_IR_TKM]

/-- Container row from `models.py` (`class Container`).  The owning order
holds its containers directly (the `order_id` foreign key plus the
`relationship` become containment in `OrderM.containers`). -/
structure Container where
  container_number : Option String
  container_type : String
  weight : Rat
  volume : Rat
  loading_date : Option Int
  departure_date : Option Int
  arrival_iran_date : Option Int
  truck_loading_date : Option Int
  arrival_turkmenistan_date : Option Int
  client_receiving_date : Option Int
  driver_first_name : Option String
  driver_last_name : Option String
  driver_company : Option String
  truck_number : Option String
  driver_iran_phone : Option String
  driver_turkmenistan_phone : Option String
  deriving DecidableEq, Repr

/-- Order row from `models.py` (`class Order`).  Nullable columns are
`Option`; `status` is stored as the enumeration value. -/
structure OrderM where
  id : Nat
  order_number : String
  client_name : String
  container_count : Int
  goods_type : Option String
  route : Option String
  transit_port : Option String
  document_number : Option String
  chinese_transport_company : Option String
  iranian_transport_company : Option String
  status : OrderStatus
  status_color : String
  creation_date : Option Int
  loading_date : Option Int
  departure_date : Option Int
  arrival_iran_date : Option Int
  truck_loading_date : Option Int
  arrival_turkmenistan_date : Option Int
  client_receiving_date : Option Int
  arrival_notice_date : Option Int
  tkm_date : Option Int
  eta_date : Option Int
  has_loading_photo : Bool
  has_local_charges : Bool
  has_tex : Bool
  notes : Option String
  additional_info : Option String
  created_at : Int
  updated_at : Int
  containers : List Container
  deriving DecidableEq, Repr

/-- Sync payload dictionary handed to
`DatabaseManager.update_order_from_sync` (`database.py`): one optional
entry per `Order` column it can touch, `none` meaning the key is absent
from the dict or mapped to `None` — the merge loop skips both
(`hasattr(existing_order, key) and value is not None`).  The caller in
`bot.py` builds this dict from `OrderSyncData`; the `sync_type` /
`sync_timestamp` keys of that pydantic model are not `Order` attributes,
so the `hasattr` guard drops them and they are not modelled here. -/
structure SyncDict where
  order_number : Option String
  client_name : Option String
  container_count : Option Int
  goods_type : Option String
  route : Option String
  transit_port : Option String
  document_number : Option String
  chinese_transport_company : Option String
  iranian_transport_company : Option String
  status : Option OrderStatus
  status_color : Option String
  creation_date : Option Int
  loading_date : Option Int
  departure_date : Option Int
  arrival_iran_date : Option Int
  truck_loading_date : Option Int
  arrival_turkmenistan_date : Option Int
  client_receiving_date : Option Int
  arrival_notice_date : Option Int
  tkm_date : Option Int
  eta_date : Option Int
  has_loading_photo : Option Bool
  has_local_charges : Option Bool
  has_tex : Option Bool
  notes : Option String
  additional_info : Option String
  deriving DecidableEq, Repr

/-- One step of the merge loop in `update_order_from_sync` for a nullable
column: a present non-null payload value overwrites, otherwise the stored
value is kept. -/
def mergeField {α : Type} (pv ov : Option α) : Option α :=
  match pv with
  | some v => some v
  | none => ov

/-- One step of the merge loop for a non-nullable column. -/
def mergeReq {α : Type} (pv : Option α) (ov : α) : α :=
  match pv with
  | some v => v
  | none => ov

/-- The `for key, value in order_data.items(): if hasattr(...) and value
is not None: setattr(...)` loop of `update_order_from_sync`, applied to an
existing order. -/
def applySyncFields (o : OrderM) (p : SyncDict) : OrderM :=
  { o with
    order_number := mergeReq p.order_number o.order_number
    client_name := mergeReq p.client_name o.client_name
    container_count := mergeReq p.container_count o.container_count
    goods_type := mergeField p.goods_type o.goods_type
    route := mergeField p.route o.route
    transit_port := mergeField p.transit_port o.transit_port
    document_number := mergeField p.document_number o.document_number
    chinese_transport_company := mergeField p.chinese_transport_company o.chinese_transport_company
    iranian_transport_company := mergeField p.iranian_transport_company o.iranian_transport_company
    status := mergeReq p.status o.status
    status_color := mergeReq p.status_color o.status_color
    creation_date := mergeField p.creation_date o.creation_date
    loading_date := mergeField p.loading_date o.loading_date
    departure_date := mergeField p.departure_date o.departure_date
    arrival_iran_date := mergeField p.arrival_iran_date o.arrival_iran_date
    truck_loading_date := mergeField p.truck_loading_date o.truck_loading_date
    arrival_turkmenistan_date := mergeField p.arrival_turkmenistan_date o.arrival_turkmenistan_date
    client_receiving_date := mergeField p.client_receiving_date o.client_receiving_date
    arrival_notice_date := mergeField p.arrival_notice_date o.arrival_notice_date
    tkm_date := mergeField p.tkm_date o.tkm_date
    eta_date := mergeField p.eta_date o.eta_date
    has_loading_photo := mergeReq p.has_loading_photo o.has_loading_photo
    has_local_charges := mergeReq p.has_local_charges o.has_local_charges
    has_tex := mergeReq p.has_tex o.has_tex
    notes := mergeField p.notes o.notes
    additional_info := mergeField p.additional_info o.additional_info }

/-- `DatabaseManager.get_order_by_number` (`database.py`): first row whose
`order_number` matches. -/
def get_order_by_number (orders : List OrderM) (num : String) : Option OrderM :=
  orders.find? (fun o => o.order_number == num)

/-- Replace the first order with the given `order_number` (the ORM mutates
the fetched row in place). -/
def replaceFirstOrder (orders : List OrderM) (num : String) (o' : OrderM) : List OrderM :=
  match orders with
  | [] => []
  | o :: rest =>
    if o.order_number == num then o' :: rest
    else o :: replaceFirstOrder rest num o'

/-- The create branch of `update_order_from_sync`: `Order(**order_data)`
with the column defaults of `models.py` filling the missing fields
(`status` defaults to NEW, flags to false, `container_count` to 0,
`status_color` to white, `creation_date` / `created_at` / `updated_at` to
the current time); `fresh` is the id the database assigns. -/
def newOrderFromSync (p : SyncDict) (now : Int) (fresh : Nat) : OrderM :=
  { id := fresh
    order_number := mergeReq p.order_number ""
    client_name := mergeReq p.client_name ""
    container_count := mergeReq p.container_count 0
    goods_type := p.goods_type
    route := p.route
    transit_port := p.transit_port
    document_number := p.document_number
    chinese_transport_company := p.chinese_transport_company
    iranian_transport_company := p.iranian_transport_company
    status := mergeReq p.status OrderStatus.NEW
    status_color := mergeReq p.status_color "#FFFFFF"
    creation_date := mergeField p.creation_date (some now)
    loading_date := p.loading_date
    departure_date := p.departure_date
    arrival_iran_date := p.arrival_iran_date
    truck_loading_date := p.truck_loading_date
    arrival_turkmenistan_date := p.arrival_turkmenistan_date
    client_receiving_date := p.client_receiving_date
    arrival_notice_date := p.arrival_notice_date
    tkm_date := p.tkm_date
    eta_date := p.eta_date
    has_loading_photo := mergeReq p.has_loading_photo false
    has_local_charges := mergeReq p.has_local_charges false
    has_tex := mergeReq p.has_tex false
    notes := p.notes
    additional_info := p.additional_info
    created_at := now
    updated_at := now
    containers := [] }

/-- The store mutation performed by a successful `update_order_from_sync`
call once validation has passed: update the found row in place (with
`updated_at` refreshed) or insert a new one. -/
def applySyncToStore (orders : List OrderM) (now : Int) (fresh : Nat) (p : SyncDict)
    (num : String) : List OrderM :=
  match get_order_by_number orders num with
  | some existing =>
      replaceFirstOrder orders num { applySyncFields existing p with updated_at := now }
  | none => orders ++ [newOrderFromSync p now fresh]

/-- `DatabaseManager.update_order_from_sync` (`database.py`): reject a
missing or empty `order_number` (`if not order_number: return False`)
before touching the store, otherwise merge-or-insert and report success. -/
def update_order_from_sync (orders : List OrderM) (now : Int) (fresh : Nat)
    (p : SyncDict) : Bool × List OrderM :=
  match p.order_number with
  | none => (false, orders)
  | some num =>
    if num = "" then (false, orders)
    else (true, applySyncToStore orders now fresh p num)

/-- `update_order_from_sync` with the commit outcome made explicit: the
body runs inside the session and `commit()` either installs every pending
change or raises, in which case the `except` branch calls `rollback()` and
returns `False` with the store as it was before the call. -/
def update_order_from_sync_tx (commitOk : Bool) (orders : List OrderM) (now : Int)
    (fresh : Nat) (p : SyncDict) : Bool × List OrderM :=
  match p.order_number with
  | none => (false, orders)
  | some num =>
    if num = "" then (false, orders)
    else if commitOk then (true, applySyncToStore orders now fresh p num)
    else (false, orders)

/-- Result record of `DatabaseManager.get_statistics` (`database.py`). -/
structure Statistics where
  total_orders : Nat
  completed_orders : Nat
  active_orders : Nat
  total_containers : Nat
  total_weight : Rat
  total_volume : Rat
  period_days : Int
  deriving DecidableEq, Repr

/-- `DatabaseManager.get_statistics` (`database.py`): `from_date = now −
days`; `total_orders` counts orders with `created_at >= from_date`,
`completed_orders` counts COMPLETED orders with `updated_at >= from_date`,
`active_orders` counts orders whose status is in the active subset with no
date filter, and the container aggregates join containers to orders with
`o.created_at >= from_date`. -/
def get_statistics (orders : List OrderM) (now : Int) (days : Int) : Statistics :=
  let from_date := now - days * 86400
  let windowOrders := orders.filter (fun o => decide (from_date ≤ o.created_at))
  let windowContainers := windowOrders.flatMap (fun o => o.containers)
  { total_orders := orders.countP (fun o => decide (from_date ≤ o.created_at))
    completed_orders := orders.countP
      (fun o => o.status == OrderStatus.COMPLETED && decide (from_date ≤ o.updated_at))
    active_orders := orders.countP (fun o => decide (o.status ∈ activeStatuses))
    total_containers := windowContainers.length
    total_weight := (windowContainers.map (fun c => c.weight)).sum
    total_volume := (windowContainers.map (fun c => c.volume)).sum
    period_days := days }

/-- Row of the `orders` table as the standalone HTTP sync endpoint
(`api_server.py`) sees it: plain SQL columns, `status` a raw string with
nullable columns as `Option` (the UPDATE statement can write NULL into
them).  The `last_modified = NOW()` assignment in the UPDATE has no
corresponding column in the `CREATE TABLE` of the same file and is not
modelled. -/
structure RowA where
  id : Nat
  order_number : String
  client_name : String
  container_count : Option Int
  goods_type : Option String
  route : Option String
  transit_port : Option String
  document_number : Option String
  chinese_transport_company : Option String
  iranian_transport_company : Option String
  status : Option String
  status_color : Option String
  creation_date : Option Int
  loading_date : Option Int
  departure_date : Option Int
  arrival_iran_date : Option Int
  truck_loading_date : Option Int
  arrival_turkmenistan_date : Option Int
  client_receiving_date : Option Int
  arrival_notice_date : Option Int
  tkm_date : Option Int
  eta_date : Option Int
  has_loading_photo : Option Bool
  has_local_charges : Option Bool
  has_tex : Option Bool
  notes : Option String
  additional_info : Option String
  sync_timestamp : Option Int
  created_at : Int
  updated_at : Int
  deriving DecidableEq, Repr

/-- The pydantic request body `OrderSyncData` of `api_server.py`:
`order_number` and `client_name` are required strings, everything else is
`Optional` (absent fields take the pydantic default, which for all of the
date and text fields is `None`). -/
structure SyncPayloadA where
  order_number : String
  client_name : String
  container_count : Option Int
  goods_type : Option String
  route : Option String
  transit_port : Option String
  document_number : Option String
  chinese_transport_company : Option String
  iranian_transport_company : Option String
  status : Option String
  status_color : Option String
  creation_date : Option Int
  loading_date : Option Int
  departure_date : Option Int
  arrival_iran_date : Option Int
  truck_loading_date : Option Int
  arrival_turkmenistan_date : Option Int
  client_receiving_date : Option Int
  arrival_notice_date : Option Int
  tkm_date : Option Int
  eta_date : Option Int
  has_loading_photo : Option Bool
  has_local_charges : Option Bool
  has_tex : Option Bool
  notes : Option String
  additional_info : Option String
  sync_type : Option String
  deriving DecidableEq, Repr

/-- The UPDATE branch of `sync_order` in `api_server.py`: every listed
column is set to the payload value — including NULL when the payload field
is null or absent — and `sync_timestamp` is set to `NOW()`. -/
def applyUpdateQuery (r : RowA) (p : SyncPayloadA) (now : Int) : RowA :=
  { r with
    client_name := p.client_name
    container_count := p.container_count
    goods_type := p.goods_type
    route := p.route
    transit_port := p.transit_port
    document_number := p.document_number
    chinese_transport_company := p.chinese_transport_company
    iranian_transport_company := p.iranian_transport_company
    status := p.status
    status_color := p.status_color
    creation_date := p.creation_date
    loading_date := p.loading_date
    departure_date := p.departure_date
    arrival_iran_date := p.arrival_iran_date
    truck_loading_date := p.truck_loading_date
    arrival_turkmenistan_date := p.arrival_turkmenistan_date
    client_receiving_date := p.client_receiving_date
    arrival_notice_date := p.arrival_notice_date
    tkm_date := p.tkm_date
    eta_date := p.eta_date
    has_loading_photo := p.has_loading_photo
    has_local_charges := p.has_local_charges
    has_tex := p.has_tex
    notes := p.notes
    additional_info := p.additional_info
    sync_timestamp := some now }

/-- The INSERT branch of `sync_order` in `api_server.py`: a new row built
from the payload columns, with `sync_timestamp`, `created_at` and
`updated_at` set to `NOW()`; `fresh` is the id the SERIAL column assigns. -/
def insertRowA (p : SyncPayloadA) (now : Int) (fresh : Nat) : RowA :=
  { id := fresh
    order_number := p.order_number
    client_name := p.client_name
    container_count := p.container_count
    goods_type := p.goods_type
    route := p.route
    transit_port := p.transit_port
    document_number := p.document_number
    chinese_transport_company := p.chinese_transport_company
    iranian_transport_company := p.iranian_transport_company
    status := p.status
    status_color := p.status_color
    creation_date := p.creation_date
    loading_date := p.loading_date
    departure_date := p.departure_date
    arrival_iran_date := p.arrival_iran_date
    truck_loading_date := p.truck_loading_date
    arrival_turkmenistan_date := p.arrival_turkmenistan_date
    client_receiving_date := p.client_receiving_date
    arrival_notice_date := p.arrival_notice_date
    tkm_date := p.tkm_date
    eta_date := p.eta_date
    has_loading_photo := p.has_loading_photo
    has_local_charges := p.has_local_charges
    has_tex := p.has_tex
    notes := p.notes
    additional_info := p.additional_info
    sync_timestamp := some now
    created_at := now
    updated_at := now }

/-- Replace the first row of the endpoint table with the given
`order_number` (the `UPDATE ... WHERE order_number = %s` statement; the
column is UNIQUE so at most one row matches). -/
def replaceFirstRowA (rows : List RowA) (num : String) (r' : RowA) : List RowA :=
  match rows with
  | [] => []
  | r :: rest =>
    if r.order_number == num then r' :: rest
    else r :: replaceFirstRowA rest num r'

/-- Response body of a successful `sync_order` call (`api_server.py`):
`action` reports which branch was taken. -/
structure SyncResultA where
  order_number : String
  order_id : Nat
  action : String
  deriving DecidableEq, Repr

/-- `sync_order` in `api_server.py`: look up the row by `order_number`;
if found run the UPDATE and answer `action = "updated"`, else run the
INSERT and answer `action = "created"`. -/
def sync_orderA (rows : List RowA) (now : Int) (fresh : Nat) (p : SyncPayloadA) :
    SyncResultA × List RowA :=
  match rows.find? (fun r => r.order_number == p.order_number) with
  | some existing =>
      ({ order_number := p.order_number, order_id := existing.id, action := "updated" },
       replaceFirstRowA rows p.order_number (applyUpdateQuery existing p now))
  | none =>
      ({ order_number := p.order_number, order_id := fresh, action := "created" },
       rows ++ [insertRowA p now fresh])

/-- Notification row from `models.py` (`class Notification`). -/
structure NotificationRow where
  id : Nat
  chat_id : String
  message : String
  notification_type : String
  scheduled_time : Int
  sent : Bool
  created_at : Int
  deriving DecidableEq, Repr

/-- Subscription row from `models.py` (`class Subscription`). -/
structure SubscriptionRow where
  id : Nat
  chat_id : String
  is_active : Bool
  notify_events : Bool
  notify_reminders : Bool
  notify_alerts : Bool
  hours_before : Int
  created_at : Int
  updated_at : Int
  deriving DecidableEq, Repr

/-- Stand-in for `datetime.strftime` in the message formatters: renders
the timestamp.  No verified property inspects message text. -/
def formatDateTime (t : Int) : String := toString t

/-- `NotificationService._format_event_message` (emoji table and line
layout abbreviated; the fields interpolated are the ones the source
interpolates). -/
def formatEventMessage (o : OrderM) (event_type : String) (event_date : Int) : String :=
  "СОБЫТИЕ: " ++ event_type ++ " Заказ: " ++ o.order_number ++ " Клиент: " ++ o.client_name
    ++ " Дата: " ++ formatDateTime event_date

/-- `NotificationService._format_reminder_message` (layout abbreviated). -/
def formatReminderMessage (o : OrderM) (event_type : String) (event_date : Int)
    (hours_before : Int) : String :=
  "НАПОМИНАНИЕ: " ++ event_type ++ " Заказ: " ++ o.order_number ++ " Клиент: " ++ o.client_name
    ++ " Событие: " ++ formatDateTime event_date ++ " Через: " ++ toString hours_before ++ " часов"

/-- `NotificationService._format_alert_message` (layout abbreviated). -/
def formatAlertMessage (o : OrderM) (alert_type : String) (alert_message : String) : String :=
  "ОПОВЕЩЕНИЕ: " ++ alert_type ++ " Заказ: " ++ o.order_number ++ " Клиент: " ++ o.client_name
    ++ " Сообщение: " ++ alert_message

/-- `NotificationService.get_upcoming_notifications`
(`notification_service.py`): the delivery sweep query — unsent rows with
`scheduled_time` between `now` and `now + timedelta(minutes=5)`. -/
def get_upcoming_notifications (notifs : List NotificationRow) (now : Int) :
    List NotificationRow :=
  notifs.filter (fun n =>
    decide (now ≤ n.scheduled_time) && decide (n.scheduled_time ≤ now + 5 * 60)
      && n.sent == false)

/-- The notification row built in the loop body of
`create_reminder_notification` for one subscription. -/
def mkReminderRow (s : SubscriptionRow) (now : Int) (o : OrderM) (event_type : String)
    (event_date : Int) : NotificationRow :=
  { id := 0
    chat_id := s.chat_id
    message := formatReminderMessage o event_type event_date s.hours_before
    notification_type := "reminder"
    scheduled_time := event_date - s.hours_before * 3600
    sent := false
    created_at := now }

/-- The rows `NotificationService.create_reminder_notification` adds in
one call: loop over the subscriptions with `is_active` and
`notify_reminders`, compute `reminder_time = event_date −
timedelta(hours=hours_before)`, and add a pending reminder only when
`reminder_time > datetime.now()`.  Database ids are assigned on insert
(see `withIds`). -/
def reminderRows (subs : List SubscriptionRow) (now : Int) (o : OrderM)
    (event_type : String) (event_date : Int) : List NotificationRow :=
  (subs.filter (fun s => s.is_active && s.notify_reminders)).filterMap (fun s =>
    let reminder_time := event_date - s.hours_before * 3600
    if now < reminder_time then some (mkReminderRow s now o event_type event_date)
    else none)

/-- The rows `NotificationService.create_event_notification` adds in one
call: one pending event notification per subscription with `is_active`
and `notify_events`, scheduled at the event's own date. -/
def eventRows (subs : List SubscriptionRow) (now : Int) (o : OrderM)
    (event_type : String) (event_date : Int) : List NotificationRow :=
  (subs.filter (fun s => s.is_active && s.notify_events)).map (fun s =>
    { id := 0
      chat_id := s.chat_id
      message := formatEventMessage o event_type event_date
      notification_type := "event"
      scheduled_time := event_date
      sent := false
      created_at := now })

/-- The rows `NotificationService.create_alert_notification` adds in one
call: one pending alert per subscription with `is_active` and
`notify_alerts`, scheduled immediately. -/
def alertRows (subs : List SubscriptionRow) (now : Int) (o : OrderM)
    (alert_type : String) (alert_message : String) : List NotificationRow :=
  (subs.filter (fun s => s.is_active && s.notify_alerts)).map (fun s =>
    { id := 0
      chat_id := s.chat_id
      message := formatAlertMessage o alert_type alert_message
      notification_type := "alert"
      scheduled_time := now
      sent := false
      created_at := now })

/-- Replace the first subscription with the given `chat_id` by its
reactivated copy (`existing.is_active = True; existing.updated_at = now`
in `subscribe_user`; `chat_id` is UNIQUE so at most one row matches). -/
def reactivateFirst (subs : List SubscriptionRow) (chat : String) (now : Int) :
    List SubscriptionRow :=
  match subs with
  | [] => []
  | s :: rest =>
    if s.chat_id == chat then { s with is_active := true, updated_at := now } :: rest
    else s :: reactivateFirst rest chat now

/-- The fresh subscription row the else-branch of `subscribe_user`
constructs, with the values the source passes explicitly plus the column
defaults of `models.py` for the timestamps; `fresh` is the id the
database assigns. -/
def defaultSubscription (chat : String) (now : Int) (fresh : Nat) : SubscriptionRow :=
  { id := fresh
    chat_id := chat
    is_active := true
    notify_events := true
    notify_reminders := true
    notify_alerts := true
    hours_before := 24
    created_at := now
    updated_at := now }

/-- `NotificationService.subscribe_user` (`notification_service.py`): if a
row with this `chat_id` exists, reactivate it and refresh `updated_at`;
otherwise insert a fresh all-flags-on row with `hours_before = 24`. -/
def subscribe_user (subs : List SubscriptionRow) (now : Int) (fresh : Nat)
    (chat : String) : Bool × List SubscriptionRow :=
  match subs.find? (fun s => s.chat_id == chat) with
  | some _ => (true, reactivateFirst subs chat now)
  | none => (true, subs ++ [defaultSubscription chat now fresh])

/-- Replace the first subscription with the given `chat_id` by its
deactivated copy (`subscription.is_active = False` in
`unsubscribe_user`). -/
def deactivateFirst (subs : List SubscriptionRow) (chat : String) (now : Int) :
    List SubscriptionRow :=
  match subs with
  | [] => []
  | s :: rest =>
    if s.chat_id == chat then { s with is_active := false, updated_at := now } :: rest
    else s :: deactivateFirst rest chat now

/-- `NotificationService.unsubscribe_user`: if a row with this `chat_id`
exists, deactivate it and refresh `updated_at`; the row is never
deleted.  Returns `false` when no row exists. -/
def unsubscribe_user (subs : List SubscriptionRow) (now : Int) (chat : String) :
    Bool × List SubscriptionRow :=
  match subs.find? (fun s => s.chat_id == chat) with
  | some _ => (true, deactivateFirst subs chat now)
  | none => (false, subs)

/-- The settings dictionary accepted by
`NotificationService.update_user_settings`: each known key optional;
unknown keys fail the `hasattr` guard and are ignored, so they are not
modelled. -/
structure SettingsPatch where
  is_active : Option Bool
  notify_events : Option Bool
  notify_reminders : Option Bool
  notify_alerts : Option Bool
  hours_before : Option Int
  deriving DecidableEq, Repr

/-- `NotificationService.update_user_settings`: apply the provided keys to
the existing row and refresh `updated_at`; report `false` when no row
with this `chat_id` exists. -/
def update_user_settings (subs : List SubscriptionRow) (now : Int) (chat : String)
    (patch : SettingsPatch) : Bool × List SubscriptionRow :=
  match subs.find? (fun s => s.chat_id == chat) with
  | some _ =>
      (true, applySettingsFirst subs chat now patch)
  | none => (false, subs)
where
  /-- Replace the first matching row by its patched copy. -/
  applySettingsFirst (l : List SubscriptionRow) (chat : String) (now : Int)
      (patch : SettingsPatch) : List SubscriptionRow :=
    match l with
    | [] => []
    | s :: rest =>
      if s.chat_id == chat then
        { s with
          is_active := mergeReq patch.is_active s.is_active
          notify_events := mergeReq patch.notify_events s.notify_events
          notify_reminders := mergeReq patch.notify_reminders s.notify_reminders
          notify_alerts := mergeReq patch.notify_alerts s.notify_alerts
          hours_before := mergeReq patch.hours_before s.hours_before
          updated_at := now } :: rest
      else s :: applySettingsFirst rest chat now patch

/-- Replace the first notification with the given id by its sent copy
(`notification.sent = True` in `mark_notification_sent`). -/
def markFirstSent (notifs : List NotificationRow) (nid : Nat) : List NotificationRow :=
  match notifs with
  | [] => []
  | n :: rest =>
    if n.id == nid then { n with sent := true } :: rest
    else n :: markFirstSent rest nid

/-- `NotificationService.mark_notification_sent`
(`notification_service.py`): fetch the row by id and set `sent = True`;
report `false` when the id is unknown. -/
def mark_notification_sent (notifs : List NotificationRow) (nid : Nat) :
    Bool × List NotificationRow :=
  match notifs.find? (fun n => n.id == nid) with
  | some _ => (true, markFirstSent notifs nid)
  | none => (false, notifs)

/-- Assign the database-generated SERIAL ids to a batch of inserted
notification rows. -/
def withIds (start : Nat) : List NotificationRow → List NotificationRow
  | [] => []
  | n :: rest => { n with id := start } :: withIds (start + 1) rest

/-- The persistent state the notification service operates on. -/
structure ServiceState where
  notifications : List NotificationRow
  subscriptions : List SubscriptionRow
  next_id : Nat
  deriving DecidableEq, Repr

/-- The mutating operations `NotificationService` exposes. -/
inductive ServiceOp where
  | markSent (nid : Nat)
  | createEvent (o : OrderM) (event_type : String) (event_date : Int)
  | createReminder (o : OrderM) (event_type : String) (event_date : Int)
  | createAlert (o : OrderM) (alert_type : String) (alert_message : String)
  | subscribe (chat : String) (fresh : Nat)
  | unsubscribe (chat : String)
  | updateSettings (chat : String) (patch : SettingsPatch)
  deriving Repr

/-- Append freshly inserted notification rows, assigning their ids. -/
def appendNotifs (st : ServiceState) (rows : List NotificationRow) : ServiceState :=
  { st with
    notifications := st.notifications ++ withIds st.next_id rows
    next_id := st.next_id + rows.length }

/-- One mutating call of `NotificationService` as a transition on the
persistent state (`now` is `datetime.now()` at the call). -/
def applyOp (now : Int) (st : ServiceState) (op : ServiceOp) : ServiceState :=
  match op with
  | .markSent nid =>
      { st with notifications := (mark_notification_sent st.notifications nid).2 }
  | .createEvent o et ed => appendNotifs st (eventRows st.subscriptions now o et ed)
  | .createReminder o et ed => appendNotifs st (reminderRows st.subscriptions now o et ed)
  | .createAlert o at' am => appendNotifs st (alertRows st.subscriptions now o at' am)
  | .subscribe c fresh =>
      { st with subscriptions := (subscribe_user st.subscriptions now fresh c).2 }
  | .unsubscribe c =>
      { st with subscriptions := (unsubscribe_user st.subscriptions now c).2 }
  | .updateSettings c patch =>
      { st with subscriptions := (update_user_settings st.subscriptions now c patch).2 }

/-! Concrete sample data used to instantiate the verified properties. -/

/-- A sync dictionary with every key absent. -/
def emptySyncDict : SyncDict :=
  { order_number := none, client_name := none, container_count := none, goods_type := none,
    route := none, transit_port := none, document_number := none,
    chinese_transport_company := none, iranian_transport_company := none, status := none,
    status_color := none, creation_date := none, loading_date := none, departure_date := none,
    arrival_iran_date := none, truck_loading_date := none,
    arrival_turkmenistan_date := none, client_receiving_date := none,
    arrival_notice_date := none, tkm_date := none, eta_date := none,
    has_loading_photo := none, has_local_charges := none, has_tex := none, notes := none,
    additional_info := none }

/-- The merge-patch payload of the spec's example: only `order_number` and
`status`. -/
def statusOnlySyncDict : SyncDict :=
  { emptySyncDict with order_number := some "X", status := some OrderStatus.COMPLETED }

/-- A stored order with `client_name = "Acme"` for order number `X`. -/
def acmeOrderM : OrderM :=
  { id := 1, order_number := "X", client_name := "Acme", container_count := 3,
    goods_type := some "tiles", route := some "CHN-TKM", transit_port := none,
    document_number := none, chinese_transport_company := none,
    iranian_transport_company := none, status := OrderStatus.IN_PROGRESS_CHN,
    status_color := "#FFFFFF", creation_date := some 100, loading_date := none,
    departure_date := some 200, arrival_iran_date := none, truck_loading_date := none,
    arrival_turkmenistan_date := none, client_receiving_date := none,
    arrival_notice_date := none, tkm_date := none, eta_date := none,
    has_loading_photo := true, has_local_charges := false, has_tex := false,
    notes := some "keep", additional_info := none, created_at := 100, updated_at := 100,
    containers := [] }

/-- A stored endpoint row whose `notes` column is populated. -/
def acmeRowA : RowA :=
  { id := 1, order_number := "ORD-1", client_name := "Acme", container_count := some 2,
    goods_type := some "tiles", route := some "CHN-TKM", transit_port := none,
    document_number := none, chinese_transport_company := none,
    iranian_transport_company := none, status := some "New",
    status_color := some "#FFFFFF", creation_date := some 100, loading_date := none,
    departure_date := none, arrival_iran_date := none, truck_loading_date := none,
    arrival_turkmenistan_date := none, client_receiving_date := none,
    arrival_notice_date := none, tkm_date := none, eta_date := none,
    has_loading_photo := some false, has_local_charges := some false,
    has_tex := some false, notes := some "keep", additional_info := none,
    sync_timestamp := none, created_at := 100, updated_at := 100 }

/-- An endpoint payload carrying only the required keys and a status; all
other fields take their pydantic defaults (`None` for `notes`). -/
def statusOnlyPayloadA : SyncPayloadA :=
  { order_number := "ORD-1", client_name := "Acme", container_count := some 0,
    goods_type := none, route := none, transit_port := none, document_number := none,
    chinese_transport_company := none, iranian_transport_company := none,
    status := some "Completed", status_color := some "#FFFFFF", creation_date := none,
    loading_date := none, departure_date := none, arrival_iran_date := none,
    truck_loading_date := none, arrival_turkmenistan_date := none,
    client_receiving_date := none, arrival_notice_date := none, tkm_date := none,
    eta_date := none, has_loading_photo := some false, has_local_charges := some false,
    has_tex := some false, notes := none, additional_info := none,
    sync_type := some "update" }

/-- A pending notification whose due time is far in the past. -/
def staleNotif : NotificationRow :=
  { id := 7, chat_id := "42", message := "m", notification_type := "reminder",
    scheduled_time := 400, sent := false, created_at := 0 }

/-- A default-configured active subscription. -/
def demoSubscription : SubscriptionRow :=
  { id := 1, chat_id := "42", is_active := true, notify_events := true,
    notify_reminders := true, notify_alerts := true, hours_before := 24,
    created_at := 0, updated_at := 0 }

/-- A subscription with customized preferences, used to observe that
re-subscribing preserves them. -/
def customSubscription : SubscriptionRow :=
  { id := 2, chat_id := "99", is_active := false, notify_events := false,
    notify_reminders := true, notify_alerts := false, hours_before := 48,
    created_at := 0, updated_at := 0 }

/-- An already-sent notification. -/
def sentNotif : NotificationRow :=
  { id := 1, chat_id := "42", message := "a", notification_type := "event",
    scheduled_time := 50, sent := true, created_at := 0 }

/-- A pending notification. -/
def pendingNotif : NotificationRow :=
  { id := 2, chat_id := "42", message := "b", notification_type := "event",
    scheduled_time := 60, sent := false, created_at := 0 }

/-- A small notification-service state. -/
def demoState : ServiceState :=
  { notifications := [sentNotif, pendingNotif], subscriptions := [demoSubscription],
    next_id := 3 }

/-- An old active order and a recent completed order, for the statistics
window. -/
def demoContainer : Container :=
  { container_number := some "C1", container_type := "20ft Standard",
    weight := 5, volume := 2, loading_date := none, departure_date := none,
    arrival_iran_date := none, truck_loading_date := none,
    arrival_turkmenistan_date := none, client_receiving_date := none,
    driver_first_name := none, driver_last_name := none, driver_company := none,
    truck_number := none, driver_iran_phone := none,
    driver_turkmenistan_phone := none }

def demoOrders : List OrderM :=
  [{ acmeOrderM with
      id := 1
      order_number := "A"
      status := OrderStatus.NEW
      created_at := 0
      updated_at := 0
      containers := [demoContainer] },
   { acmeOrderM with
      id := 2
      order_number := "B"
      status := OrderStatus.COMPLETED
      created_at := 999000
      updated_at := 999500
      containers := [] }]

/-!  Verified properties. -/

/-- C7: a payload whose `order_number` is missing or empty is rejected by
`update_order_from_sync` with a failure result before any storage access,
leaving the store exactly as it was. -/
theorem C7_missing_key_rejected (orders : List OrderM) (now : Int) (fresh : Nat)
    (p : SyncDict) (h : p.order_number = none ∨ p.order_number = some "") :
    update_order_from_sync orders now fresh p = (false, orders) := by
  rcases h with h | h <;> simp [update_order_from_sync, h]

/-- Witness for C7 at a concrete input: the all-absent payload against an
empty store. -/
theorem C7_missing_key_rejected_witness :
    update_order_from_sync [] 0 1 emptySyncDict = (false, []) :=
  C7_missing_key_rejected [] 0 1 emptySyncDict (Or.inl rfl)

/-- C8: the upsert is atomic with respect to commit failures — its result
is either exactly the fully merged store of the successful upsert, or a
failure result with the store exactly as before the call; no partial
write is reachable. -/
theorem C8_upsert_atomic (commitOk : Bool) (orders : List OrderM) (now : Int)
    (fresh : Nat) (p : SyncDict) :
    (update_order_from_sync_tx commitOk orders now fresh p
        = update_order_from_sync orders now fresh p ∧ commitOk = true)
      ∨ update_order_from_sync_tx commitOk orders now fresh p = (false, orders) := by
  cases commitOk with
  | false =>
    right
    cases hp : p.order_number with
    | none => simp [update_order_from_sync_tx, hp]
    | some num =>
      by_cases hnum : num = "" <;> simp [update_order_from_sync_tx, hp, hnum]
  | true =>
    left
    refine ⟨?_, rfl⟩
    cases hp : p.order_number with
    | none => simp [update_order_from_sync_tx, update_order_from_sync, hp]
    | some num =>
      by_cases hnum : num = "" <;>
        simp [update_order_from_sync_tx, update_order_from_sync, hp, hnum]

/-- C2 fails on the code as stated: a pending notification whose
`scheduled_time` is far in the past (here 400, with the sweep at
now = 1000, i.e. overdue by twice the 5-minute interval) is NOT returned
by the delivery sweep, because the query requires
`scheduled_time >= now`. -/
theorem C2_counterexample :
    staleNotif.sent = false ∧ staleNotif.scheduled_time + 600 ≤ 1000 ∧
      staleNotif ∉ get_upcoming_notifications [staleNotif] 1000 := by
  decide

/-- C2 amended: the delivery sweep returns exactly the unsent rows with
`scheduled_time` inside `[now, now + 5 minutes]`; pending rows whose due
time has already passed are excluded by the `scheduled_time >= now` lower
bound, not delivered. -/
theorem C2_sweep_window (notifs : List NotificationRow) (now : Int)
    (n : NotificationRow) :
    n ∈ get_upcoming_notifications notifs now ↔
      n ∈ notifs ∧ now ≤ n.scheduled_time ∧ n.scheduled_time ≤ now + 5 * 60
        ∧ n.sent = false := by
  simp [get_upcoming_notifications, List.mem_filter, and_assoc]


/-- Helper: after replacing the first row matching `num` by a row whose
`order_number` is `num`, the lookup by `num` returns the replacement. -/
theorem find?_replaceFirstOrder (l : List OrderM) (num : String) (o' : OrderM)
    (hsome : (l.find? (fun o => o.order_number == num)).isSome = true)
    (h' : o'.order_number = num) :
    (replaceFirstOrder l num o').find? (fun o => o.order_number == num) = some o' := by
  induction l with
  | nil => simp [List.find?] at hsome
  | cons o rest ih =>
    by_cases hx : (o.order_number == num) = true
    · simp [replaceFirstOrder, hx, List.find?, h']
    · have hrest : (rest.find? (fun o => o.order_number == num)).isSome = true := by
        simpa [List.find?, hx] using hsome
      simpa [replaceFirstOrder, hx, List.find?] using ih hrest

/-- C1 amended: the store-level upsert `update_order_from_sync` applies a
partial merge against the existing row — each field present with a
non-null value in the payload overwrites the stored field, and each field
absent or null in the payload keeps its previous stored value; the HTTP
endpoint `sync_order` of `api_server.py`, by contrast, overwrites every
column with the payload value (see the counterexample). -/
theorem C1_store_upsert_merge_patch (orders : List OrderM) (now : Int) (fresh : Nat)
    (p : SyncDict) (num : String) (e : OrderM)
    (hnum : p.order_number = some num) (hempty : ¬ num = "")
    (hfound : get_order_by_number orders num = some e) :
    get_order_by_number (update_order_from_sync orders now fresh p).2 num
        = some { applySyncFields e p with updated_at := now } ∧
    (∀ v, p.client_name = some v → (applySyncFields e p).client_name = v) ∧
    (p.client_name = none → (applySyncFields e p).client_name = e.client_name) ∧
    (∀ v, p.order_number = some v → (applySyncFields e p).order_number = v) ∧
    (p.order_number = none → (applySyncFields e p).order_number = e.order_number) ∧
    (∀ v, p.container_count = some v → (applySyncFields e p).container_count = v) ∧
    (p.container_count = none → (applySyncFields e p).container_count = e.container_count) ∧
    (∀ v, p.status = some v → (applySyncFields e p).status = v) ∧
    (p.status = none → (applySyncFields e p).status = e.status) ∧
    (∀ v, p.status_color = some v → (applySyncFields e p).status_color = v) ∧
    (p.status_color = none → (applySyncFields e p).status_color = e.status_color) ∧
    (∀ v, p.has_loading_photo = some v → (applySyncFields e p).has_loading_photo = v) ∧
    (p.has_loading_photo = none → (applySyncFields e p).has_loading_photo = e.has_loading_photo) ∧
    (∀ v, p.has_local_charges = some v → (applySyncFields e p).has_local_charges = v) ∧
    (p.has_local_charges = none → (applySyncFields e p).has_local_charges = e.has_local_charges) ∧
    (∀ v, p.has_tex = some v → (applySyncFields e p).has_tex = v) ∧
    (p.has_tex = none → (applySyncFields e p).has_tex = e.has_tex) ∧
    (∀ v, p.goods_type = some v → (applySyncFields e p).goods_type = some v) ∧
    (p.goods_type = none → (applySyncFields e p).goods_type = e.goods_type) ∧
    (∀ v, p.route = some v → (applySyncFields e p).route = some v) ∧
    (p.route = none → (applySyncFields e p).route = e.route) ∧
    (∀ v, p.transit_port = some v → (applySyncFields e p).transit_port = some v) ∧
    (p.transit_port = none → (applySyncFields e p).transit_port = e.transit_port) ∧
    (∀ v, p.document_number = some v → (applySyncFields e p).document_number = some v) ∧
    (p.document_number = none → (applySyncFields e p).document_number = e.document_number) ∧
    (∀ v, p.chinese_transport_company = some v → (applySyncFields e p).chinese_transport_company = some v) ∧
    (p.chinese_transport_company = none → (applySyncFields e p).chinese_transport_company = e.chinese_transport_company) ∧
    (∀ v, p.iranian_transport_company = some v → (applySyncFields e p).iranian_transport_company = some v) ∧
    (p.iranian_transport_company = none → (applySyncFields e p).iranian_transport_company = e.iranian_transport_company) ∧
    (∀ v, p.creation_date = some v → (applySyncFields e p).creation_date = some v) ∧
    (p.creation_date = none → (applySyncFields e p).creation_date = e.creation_date) ∧
    (∀ v, p.loading_date = some v → (applySyncFields e p).loading_date = some v) ∧
    (p.loading_date = none → (applySyncFields e p).loading_date = e.loading_date) ∧
    (∀ v, p.departure_date = some v → (applySyncFields e p).departure_date = some v) ∧
    (p.departure_date = none → (applySyncFields e p).departure_date = e.departure_date) ∧
    (∀ v, p.arrival_iran_date = some v → (applySyncFields e p).arrival_iran_date = some v) ∧
    (p.arrival_iran_date = none → (applySyncFields e p).arrival_iran_date = e.arrival_iran_date) ∧
    (∀ v, p.truck_loading_date = some v → (applySyncFields e p).truck_loading_date = some v) ∧
    (p.truck_loading_date = none → (applySyncFields e p).truck_loading_date = e.truck_loading_date) ∧
    (∀ v, p.arrival_turkmenistan_date = some v → (applySyncFields e p).arrival_turkmenistan_date = some v) ∧
    (p.arrival_turkmenistan_date = none → (applySyncFields e p).arrival_turkmenistan_date = e.arrival_turkmenistan_date) ∧
    (∀ v, p.client_receiving_date = some v → (applySyncFields e p).client_receiving_date = some v) ∧
    (p.client_receiving_date = none → (applySyncFields e p).client_receiving_date = e.client_receiving_date) ∧
    (∀ v, p.arrival_notice_date = some v → (applySyncFields e p).arrival_notice_date = some v) ∧
    (p.arrival_notice_date = none → (applySyncFields e p).arrival_notice_date = e.arrival_notice_date) ∧
    (∀ v, p.tkm_date = some v → (applySyncFields e p).tkm_date = some v) ∧
    (p.tkm_date = none → (applySyncFields e p).tkm_date = e.tkm_date) ∧
    (∀ v, p.eta_date = some v → (applySyncFields e p).eta_date = some v) ∧
    (p.eta_date = none → (applySyncFields e p).eta_date = e.eta_date) ∧
    (∀ v, p.notes = some v → (applySyncFields e p).notes = some v) ∧
    (p.notes = none → (applySyncFields e p).notes = e.notes) ∧
    (∀ v, p.additional_info = some v → (applySyncFields e p).additional_info = some v) ∧
    (p.additional_info = none → (applySyncFields e p).additional_info = e.additional_info) := by
  constructor
  · have hsome : (orders.find? (fun o => o.order_number == num)).isSome = true := by
      unfold get_order_by_number at hfound
      simp [hfound]
    have hnn : ({ applySyncFields e p with updated_at := now } : OrderM).order_number = num := by
      simp [applySyncFields, mergeReq, hnum]
    have hrepl := find?_replaceFirstOrder orders num _ hsome hnn
    unfold update_order_from_sync
    simp only [hnum]
    rw [if_neg hempty]
    unfold applySyncToStore
    rw [hfound]
    exact hrepl
  · repeat' apply And.intro
    all_goals
      first
        | (intro v h; simp [applySyncFields, mergeField, mergeReq, h])
        | (intro h; simp [applySyncFields, mergeField, mergeReq, h])

/-- C1 as stated fails on the HTTP sync endpoint: against a stored row
with `notes` set, a payload whose `notes` field is null leaves the
updated row with `notes = NULL` — the endpoint UPDATE is a full replace,
not a merge patch. -/
theorem C1_counterexample :
    acmeRowA.notes = some "keep" ∧ statusOnlyPayloadA.notes = none ∧
      ((sync_orderA [acmeRowA] 1000 2 statusOnlyPayloadA).2.map (fun r => r.notes))
        = [none] := by
  decide

/-- Witness for C1 at the spec's own example: syncing only
`order_number` and `status` against a stored row with
`client_name = "Acme"` keeps `client_name = "Acme"`. -/
theorem C1_store_upsert_merge_patch_witness :
    get_order_by_number (update_order_from_sync [acmeOrderM] 1000 2 statusOnlySyncDict).2 "X"
        = some { applySyncFields acmeOrderM statusOnlySyncDict with updated_at := 1000 }
      ∧ (applySyncFields acmeOrderM statusOnlySyncDict).client_name = "Acme" := by
  have h := C1_store_upsert_merge_patch [acmeOrderM] 1000 2 statusOnlySyncDict "X"
    acmeOrderM rfl (by decide) (by decide)
  exact ⟨h.1, (h.2.2.1 rfl).trans rfl⟩

/-- Helper: find? over an append when the first part has no match. -/
theorem find?_append_none {α : Type} (l l' : List α) (p : α → Bool)
    (h : l.find? p = none) : (l ++ l').find? p = l'.find? p := by
  induction l with
  | nil => simp
  | cons a rest ih =>
    by_cases ha : p a = true
    · simp [List.find?, ha] at h
    · have h' : rest.find? p = none := by simpa [List.find?, ha] using h
      simpa [List.find?, ha] using ih h'

/-- Helper: after replacing the first endpoint row matching `num` by a
row whose `order_number` is `num`, the lookup by `num` returns the
replacement. -/
theorem find?_replaceFirstRowA (l : List RowA) (num : String) (r' : RowA)
    (hsome : (l.find? (fun r => r.order_number == num)).isSome = true)
    (h' : r'.order_number = num) :
    (replaceFirstRowA l num r').find? (fun r => r.order_number == num) = some r' := by
  induction l with
  | nil => simp [List.find?] at hsome
  | cons r rest ih =>
    by_cases hx : (r.order_number == num) = true
    · simp [replaceFirstRowA, hx, List.find?, h']
    · have hrest : (rest.find? (fun r => r.order_number == num)).isSome = true := by
        simpa [List.find?, hx] using hsome
      simpa [replaceFirstRowA, hx, List.find?] using ih hrest

/-- C3: the sync endpoint reports which branch was taken — syncing an
order number the store has never seen answers `action = "created"` and
leaves a row with that number in the store, and syncing any payload with
that same order number against a store that has such a row answers
`action = "updated"` (and keeps the row present, so every later sync of
the number also answers `"updated"`). -/
theorem C3_created_then_updated (rows : List RowA) (now1 : Int) (fresh1 : Nat)
    (p : SyncPayloadA)
    (hnew : rows.find? (fun r => r.order_number == p.order_number) = none) :
    (sync_orderA rows now1 fresh1 p).1.action = "created" ∧
    (((sync_orderA rows now1 fresh1 p).2.find?
        (fun r => r.order_number == p.order_number)).isSome = true) ∧
    (∀ st : List RowA, ∀ now2 : Int, ∀ fresh2 : Nat, ∀ q : SyncPayloadA,
      q.order_number = p.order_number →
      (st.find? (fun r => r.order_number == p.order_number)).isSome = true →
      (sync_orderA st now2 fresh2 q).1.action = "updated" ∧
      ((sync_orderA st now2 fresh2 q).2.find?
          (fun r => r.order_number == p.order_number)).isSome = true) := by
  refine ⟨?_, ?_, ?_⟩
  · simp [sync_orderA, hnew]
  · have h2 : (sync_orderA rows now1 fresh1 p).2 = rows ++ [insertRowA p now1 fresh1] := by
      simp [sync_orderA, hnew]
    rw [h2, find?_append_none rows _ _ hnew]
    simp [List.find?, insertRowA]
  · intro st now2 fresh2 q hq hsome
    obtain ⟨r, hr⟩ := Option.isSome_iff_exists.mp hsome
    have hrq : st.find? (fun x => x.order_number == q.order_number) = some r := by
      rw [hq]; exact hr
    have hmatch : (r.order_number == p.order_number) = true := by
      have := List.find?_some hr
      simpa using this
    have hnum : r.order_number = p.order_number := by
      simpa using hmatch
    constructor
    · simp [sync_orderA, hrq]
    · have h3 : (sync_orderA st now2 fresh2 q).2
          = replaceFirstRowA st q.order_number (applyUpdateQuery r q now2) := by
        simp [sync_orderA, hrq]
      rw [h3, hq]
      have h4 := find?_replaceFirstRowA st p.order_number (applyUpdateQuery r q now2)
        hsome (by simpa [applyUpdateQuery] using hnum)
      simp [h4]

/-- Witness for C3 at a concrete input: the first sync of `ORD-1` into an
empty store answers created, the second answers updated. -/
theorem C3_created_then_updated_witness :
    (sync_orderA [] 0 1 statusOnlyPayloadA).1.action = "created" ∧
    (sync_orderA (sync_orderA [] 0 1 statusOnlyPayloadA).2 5 2 statusOnlyPayloadA).1.action
        = "updated" := by
  have h := C3_created_then_updated [] 0 1 statusOnlyPayloadA rfl
  exact ⟨h.1, (h.2.2 (sync_orderA [] 0 1 statusOnlyPayloadA).2 5 2 statusOnlyPayloadA
    rfl h.2.1).1⟩

/-- Helper: the reminder loop produces exactly one row per subscription
passing the active, notify-reminders and future-reminder tests. -/
theorem reminderRows_eq (subs : List SubscriptionRow) (now : Int) (o : OrderM)
    (et : String) (ed : Int) :
    reminderRows subs now o et ed
      = (subs.filter (fun s => s.is_active && (s.notify_reminders
            && decide (now < ed - s.hours_before * 3600)))).map
          (fun s => mkReminderRow s now o et ed) := by
  induction subs with
  | nil => rfl
  | cons a l ih =>
    by_cases ha : a.is_active = true
    · by_cases hb : a.notify_reminders = true
      · by_cases h2 : now < ed - a.hours_before * 3600
        · simp [reminderRows, List.filter_cons, ha, hb, h2, ← ih]
        · simp [reminderRows, List.filter_cons, ha, hb, h2, ← ih]
      · simp [reminderRows, List.filter_cons, ha, hb, ← ih]
    · simp [reminderRows, List.filter_cons, ha, ← ih]

/-- Helper: with unique chat ids, the rows of a filtered subscription
list that belong to one member number one or zero according to the
filter. -/
theorem countFilterChat (subs : List SubscriptionRow) (q : SubscriptionRow → Bool)
    (s : SubscriptionRow)
    (hnd : (subs.map (fun x => x.chat_id)).Nodup) (hs : s ∈ subs) :
    ((subs.filter q).filter (fun x => x.chat_id == s.chat_id)).length
      = if q s = true then 1 else 0 := by
  induction subs with
  | nil => cases hs
  | cons a l ih =>
    rw [List.map_cons, List.nodup_cons] at hnd
    rcases List.mem_cons.mp hs with rfl | hmem
    · have hnot : ∀ x ∈ l, x.chat_id ≠ s.chat_id := by
        intro x hx hxeq
        exact hnd.1 (hxeq ▸ List.mem_map_of_mem _ hx)
      have hz : ((l.filter q).filter (fun x => x.chat_id == s.chat_id)).length = 0 := by
        rw [List.length_eq_zero, List.filter_eq_nil_iff]
        intro x hx hxc
        have hxeq : x.chat_id = s.chat_id := by simpa using hxc
        exact hnot x (List.mem_of_mem_filter hx) hxeq
      by_cases hq : q s = true
      · rw [List.filter_cons, if_pos hq, List.filter_cons, if_pos (beq_self_eq_true s.chat_id),
          List.length_cons, hz, if_pos hq]
      · rw [List.filter_cons, if_neg hq, if_neg hq]
        exact hz
    · have hne : ¬(a.chat_id == s.chat_id) = true := by
        intro hc
        have haeq : a.chat_id = s.chat_id := by simpa using hc
        exact hnd.1 (haeq ▸ List.mem_map_of_mem _ hmem)
      have hrec := ih hnd.2 hmem
      by_cases hq : q a = true
      · simpa [List.filter_cons, hq, hne] using hrec
      · simpa [List.filter_cons, hq, hne] using hrec

/-- C4: reminder scheduling for one (order, milestone) call — every
created row is a pending reminder for an active subscription with
notify_reminders, scheduled at milestone time minus hours_before and
strictly in the future; and per subscription exactly one row is created
when its reminder time is still in the future, none when it is past. -/
theorem C4_reminder_rule (subs : List SubscriptionRow) (now : Int) (o : OrderM)
    (et : String) (ed : Int) (s : SubscriptionRow)
    (hnd : (subs.map (fun x => x.chat_id)).Nodup) (hs : s ∈ subs) :
    (∀ n, n ∈ reminderRows subs now o et ed →
        n.notification_type = "reminder" ∧ n.sent = false ∧
        ∃ u, u ∈ subs ∧ u.is_active = true ∧ u.notify_reminders = true ∧
          n.chat_id = u.chat_id ∧ n.scheduled_time = ed - u.hours_before * 3600 ∧
          now < n.scheduled_time) ∧
    ((reminderRows subs now o et ed).filter (fun n => n.chat_id == s.chat_id)).length
      = (if s.is_active = true ∧ s.notify_reminders = true
            ∧ now < ed - s.hours_before * 3600 then 1 else 0) := by
  constructor
  · intro n hn
    rw [reminderRows_eq] at hn
    obtain ⟨u, hu, rfl⟩ := List.mem_map.mp hn
    have humem := List.mem_of_mem_filter hu
    have hcond := List.of_mem_filter hu
    simp only [Bool.and_eq_true, decide_eq_true_eq] at hcond
    exact ⟨rfl, rfl, u, humem, hcond.1, hcond.2.1, rfl, rfl, hcond.2.2⟩
  · rw [reminderRows_eq, List.filter_map]
    have hcomp : ((fun n => n.chat_id == s.chat_id)
          ∘ (fun u => mkReminderRow u now o et ed))
        = fun u => u.chat_id == s.chat_id := rfl
    rw [hcomp, List.length_map]
    rw [countFilterChat subs _ s hnd hs]
    by_cases h1 : s.is_active = true
    · by_cases h2 : s.notify_reminders = true
      · by_cases h3 : now < ed - s.hours_before * 3600
        · simp [h1, h2, h3]
        · simp [h1, h2, h3]
      · simp [h1, h2]
    · simp [h1]

/-- Witness for C4 at a concrete input: one default subscription, a
milestone 100 hours ahead, reminder lead 24 hours — exactly one reminder
row is created for it. -/
theorem C4_reminder_rule_witness :
    ((reminderRows [demoSubscription] 0 acmeOrderM "e" 360000).filter
        (fun n => n.chat_id == demoSubscription.chat_id)).length = 1 := by
  have h := C4_reminder_rule [demoSubscription] 0 acmeOrderM "e" 360000
    demoSubscription (by decide) (by decide)
  rw [h.2]
  decide

/-- C5: the statistics computation counts `active_orders` over the whole
store irrespective of any date (in particular it is invariant under
arbitrary changes of the rows' timestamps), while `total_orders` counts
only orders created within the trailing window of `days` days,
`completed_orders` only COMPLETED orders updated within that window, and
the container aggregates only containers of orders created within that
window. -/
theorem C5_statistics_window (orders : List OrderM) (now : Int) (days : Int) :
    (get_statistics orders now days).total_orders
        = orders.countP (fun o => decide (now - o.created_at ≤ days * 86400)) ∧
    (get_statistics orders now days).completed_orders
        = orders.countP (fun o => o.status == OrderStatus.COMPLETED
            && decide (now - o.updated_at ≤ days * 86400)) ∧
    (get_statistics orders now days).active_orders
        = orders.countP (fun o => decide (o.status ∈ activeStatuses)) ∧
    (∀ f : OrderM → OrderM, (∀ o, (f o).status = o.status) →
        (get_statistics (orders.map f) now days).active_orders
          = (get_statistics orders now days).active_orders) ∧
    (get_statistics orders now days).total_containers
        = ((orders.filter (fun o => decide (now - o.created_at ≤ days * 86400))).flatMap
            (fun o => o.containers)).length ∧
    (get_statistics orders now days).total_weight
        = (((orders.filter (fun o => decide (now - o.created_at ≤ days * 86400))).flatMap
            (fun o => o.containers)).map (fun c => c.weight)).sum ∧
    (get_statistics orders now days).total_volume
        = (((orders.filter (fun o => decide (now - o.created_at ≤ days * 86400))).flatMap
            (fun o => o.containers)).map (fun c => c.volume)).sum := by
  have hc : ∀ o : OrderM, (decide (now - days * 86400 ≤ o.created_at))
      = (decide (now - o.created_at ≤ days * 86400)) := by
    intro o
    simp only [decide_eq_decide]
    omega
  have hu : ∀ o : OrderM, (decide (now - days * 86400 ≤ o.updated_at))
      = (decide (now - o.updated_at ≤ days * 86400)) := by
    intro o
    simp only [decide_eq_decide]
    omega
  have hfil : orders.filter (fun o => decide (now - days * 86400 ≤ o.created_at))
      = orders.filter (fun o => decide (now - o.created_at ≤ days * 86400)) :=
    List.filter_congr (fun o _ => hc o)
  refine ⟨?_, ?_, rfl, ?_, ?_, ?_, ?_⟩
  · simp only [get_statistics]
    exact List.countP_congr (fun o _ => by rw [hc o])
  · simp only [get_statistics]
    exact List.countP_congr (fun o _ => by rw [hu o])
  · intro f hf
    simp only [get_statistics, List.countP_map]
    exact List.countP_congr (fun o _ => by
      simp only [Function.comp_apply]
      rw [hf o])
  · simp only [get_statistics]
    rw [hfil]
  · simp only [get_statistics]
    rw [hfil]
  · simp only [get_statistics]
    rw [hfil]

/-- Witness for C5 at a concrete input: an old active order and a recent
completed order with the sweep at `days = 7` — the active count sees the
old order, the windowed total sees only the recent one, and changing
every `created_at` leaves the active count unchanged. -/
theorem C5_statistics_window_witness :
    (get_statistics demoOrders 1000000 7).active_orders = 1 ∧
    (get_statistics demoOrders 1000000 7).total_orders = 1 ∧
    (get_statistics (demoOrders.map (fun o => { o with created_at := 0 }))
        1000000 7).active_orders = 1 := by
  have h := C5_statistics_window demoOrders 1000000 7
  refine ⟨?_, ?_, ?_⟩
  · rw [h.2.2.1]
    decide
  · rw [h.1]
    decide
  · rw [h.2.2.2.1 (fun o => { o with created_at := 0 }) (fun o => rfl), h.2.2.1]
    decide

/-- Helper: every row survives `markFirstSent`, at most with its sent
flag raised from false to true. -/
theorem mem_markFirstSent (l : List NotificationRow) (nid : Nat) (r : NotificationRow)
    (hr : r ∈ l) :
    r ∈ markFirstSent l nid
      ∨ ({ r with sent := true } ∈ markFirstSent l nid ∧ r.sent = false) := by
  induction l with
  | nil => cases hr
  | cons n rest ih =>
    by_cases hn : (n.id == nid) = true
    · rcases List.mem_cons.mp hr with rfl | hmem
      · by_cases hs : r.sent = true
        · left
          have he : ({ r with sent := true } : NotificationRow) = r := by
            cases r
            simp_all
          rw [← he]
          simp [markFirstSent, hn]
        · right
          refine ⟨by simp [markFirstSent, hn], by simpa using hs⟩
      · left
        simp only [markFirstSent, hn, if_true]
        exact List.mem_cons_of_mem _ hmem
    · rcases List.mem_cons.mp hr with rfl | hmem
      · left
        simp [markFirstSent, hn]
      · rcases ih hmem with h | h
        · left
          simp only [markFirstSent, hn, if_false]
          exact List.mem_cons_of_mem _ h
        · right
          refine ⟨?_, h.2⟩
          simp only [markFirstSent, hn, if_false]
          exact List.mem_cons_of_mem _ h.1

/-- Helper: every row of `markFirstSent` is a prior row or a prior row
with its sent flag raised. -/
theorem mem_markFirstSent_src (l : List NotificationRow) (nid : Nat)
    (r' : NotificationRow) (hr' : r' ∈ markFirstSent l nid) :
    r' ∈ l ∨ ∃ r, r ∈ l ∧ r' = { r with sent := true } := by
  induction l with
  | nil => cases hr'
  | cons n rest ih =>
    by_cases hn : (n.id == nid) = true
    · rcases List.mem_cons.mp (by simpa [markFirstSent, hn] using hr') with rfl | hmem
      · exact Or.inr ⟨n, List.mem_cons_self _ _, rfl⟩
      · exact Or.inl (List.mem_cons_of_mem _ hmem)
    · rcases List.mem_cons.mp (by simpa [markFirstSent, hn] using hr') with rfl | hmem
      · exact Or.inl (List.mem_cons_self _ _)
      · rcases ih hmem with h | ⟨r, hr, he⟩
        · exact Or.inl (List.mem_cons_of_mem _ h)
        · exact Or.inr ⟨r, List.mem_cons_of_mem _ hr, he⟩

/-- Helper: id assignment preserves the pending flag of inserted rows. -/
theorem sent_withIds (l : List NotificationRow) (h : ∀ n ∈ l, n.sent = false) :
    ∀ start : Nat, ∀ n' ∈ withIds start l, n'.sent = false := by
  induction l with
  | nil =>
    intro start n' h'
    cases h'
  | cons n rest ih =>
    intro start n' h'
    rcases List.mem_cons.mp (by simpa [withIds] using h') with rfl | hmem
    · simpa using h n (List.mem_cons_self _ _)
    · exact ih (fun m hm => h m (List.mem_cons_of_mem _ hm)) (start + 1) n' hmem

/-- Helper: event notifications are created pending. -/
theorem sent_eventRows (subs : List SubscriptionRow) (now : Int) (o : OrderM)
    (et : String) (ed : Int) : ∀ n ∈ eventRows subs now o et ed, n.sent = false := by
  intro n hn
  obtain ⟨s, _, rfl⟩ := List.mem_map.mp hn
  rfl

/-- Helper: reminder notifications are created pending. -/
theorem sent_reminderRows (subs : List SubscriptionRow) (now : Int) (o : OrderM)
    (et : String) (ed : Int) : ∀ n ∈ reminderRows subs now o et ed, n.sent = false := by
  intro n hn
  rw [reminderRows_eq] at hn
  obtain ⟨s, _, rfl⟩ := List.mem_map.mp hn
  rfl

/-- Helper: alert notifications are created pending. -/
theorem sent_alertRows (subs : List SubscriptionRow) (now : Int) (o : OrderM)
    (at' : String) (am : String) : ∀ n ∈ alertRows subs now o at' am, n.sent = false := by
  intro n hn
  obtain ⟨s, _, rfl⟩ := List.mem_map.mp hn
  rfl

/-- C6: the sent flag is monotonic under every mutating operation of the
notification service — every pre-existing notification survives the
operation unchanged or exactly with its sent flag raised from false to
true; a notification already sent is kept fully unchanged; and every row
present afterwards is a prior row, a prior row with sent raised, or a
freshly created pending (sent = false) row. -/
theorem C6_sent_monotonic (now : Int) (st : ServiceState) (op : ServiceOp) :
    (∀ r, r ∈ st.notifications →
        r ∈ (applyOp now st op).notifications ∨
        ({ r with sent := true } ∈ (applyOp now st op).notifications ∧ r.sent = false)) ∧
    (∀ r, r ∈ st.notifications → r.sent = true →
        r ∈ (applyOp now st op).notifications) ∧
    (∀ r', r' ∈ (applyOp now st op).notifications →
        r' ∈ st.notifications
          ∨ (∃ r, r ∈ st.notifications ∧ r' = { r with sent := true })
          ∨ r'.sent = false) := by
  cases op with
  | markSent nid =>
    cases hf : st.notifications.find? (fun n => n.id == nid) with
    | none =>
      have he : (applyOp now st (ServiceOp.markSent nid)).notifications
          = st.notifications := by
        simp [applyOp, mark_notification_sent, hf]
      refine ⟨?_, ?_, ?_⟩
      · intro r hr
        rw [he]
        exact Or.inl hr
      · intro r hr _
        rw [he]
        exact hr
      · intro r' hr'
        rw [he] at hr'
        exact Or.inl hr'
    | some x =>
      have he : (applyOp now st (ServiceOp.markSent nid)).notifications
          = markFirstSent st.notifications nid := by
        simp [applyOp, mark_notification_sent, hf]
      refine ⟨?_, ?_, ?_⟩
      · intro r hr
        rw [he]
        exact mem_markFirstSent st.notifications nid r hr
      · intro r hr hs
        rw [he]
        rcases mem_markFirstSent st.notifications nid r hr with h | h
        · exact h
        · rw [h.2] at hs
          cases hs
      · intro r' hr'
        rw [he] at hr'
        rcases mem_markFirstSent_src st.notifications nid r' hr' with h | ⟨r, hr, hee⟩
        · exact Or.inl h
        · exact Or.inr (Or.inl ⟨r, hr, hee⟩)
  | createEvent o et ed =>
    refine ⟨?_, ?_, ?_⟩
    · intro r hr
      exact Or.inl (List.mem_append_left _ hr)
    · intro r hr _
      exact List.mem_append_left _ hr
    · intro r' hr'
      rcases List.mem_append.mp hr' with h | h
      · exact Or.inl h
      · exact Or.inr (Or.inr
          (sent_withIds _ (sent_eventRows st.subscriptions now o et ed) _ r' h))
  | createReminder o et ed =>
    refine ⟨?_, ?_, ?_⟩
    · intro r hr
      exact Or.inl (List.mem_append_left _ hr)
    · intro r hr _
      exact List.mem_append_left _ hr
    · intro r' hr'
      rcases List.mem_append.mp hr' with h | h
      · exact Or.inl h
      · exact Or.inr (Or.inr
          (sent_withIds _ (sent_reminderRows st.subscriptions now o et ed) _ r' h))
  | createAlert o at' am =>
    refine ⟨?_, ?_, ?_⟩
    · intro r hr
      exact Or.inl (List.mem_append_left _ hr)
    · intro r hr _
      exact List.mem_append_left _ hr
    · intro r' hr'
      rcases List.mem_append.mp hr' with h | h
      · exact Or.inl h
      · exact Or.inr (Or.inr
          (sent_withIds _ (sent_alertRows st.subscriptions now o at' am) _ r' h))
  | subscribe c fresh =>
    exact ⟨fun r hr => Or.inl hr, fun r hr _ => hr, fun r' hr' => Or.inl hr'⟩
  | unsubscribe c =>
    exact ⟨fun r hr => Or.inl hr, fun r hr _ => hr, fun r' hr' => Or.inl hr'⟩
  | updateSettings c patch =>
    exact ⟨fun r hr => Or.inl hr, fun r hr _ => hr, fun r' hr' => Or.inl hr'⟩

/-- Witness for C6 at a concrete input: marking notification 2 sent in a
state that also holds the already-sent notification 1 keeps the sent row
unchanged and raises the pending row's flag. -/
theorem C6_sent_monotonic_witness :
    sentNotif ∈ (applyOp 0 demoState (ServiceOp.markSent 2)).notifications ∧
    ({ pendingNotif with sent := true }
        ∈ (applyOp 0 demoState (ServiceOp.markSent 2)).notifications ∧
      pendingNotif.sent = false) := by
  have h := C6_sent_monotonic 0 demoState (ServiceOp.markSent 2)
  refine ⟨h.2.1 sentNotif (by decide) rfl, ?_⟩
  rcases h.1 pendingNotif (by decide) with hc | hc
  · exact absurd hc (by decide)
  · exact hc

/-- Helper: reactivating a subscription leaves the lookup pointing at the
reactivated copy of the found row. -/
theorem find?_reactivateFirst (l : List SubscriptionRow) (chat : String) (now : Int)
    (s : SubscriptionRow) (hfound : l.find? (fun x => x.chat_id == chat) = some s) :
    (reactivateFirst l chat now).find? (fun x => x.chat_id == chat)
      = some { s with is_active := true, updated_at := now } := by
  induction l with
  | nil => cases hfound
  | cons a rest ih =>
    by_cases hx : (a.chat_id == chat) = true
    · have hsa : a = s := by
        have h2 := hfound
        simp only [List.find?_cons, hx] at h2
        exact Option.some.inj h2
      subst hsa
      rw [reactivateFirst, if_pos hx]
      simp [List.find?_cons, hx]
    · have hrest : rest.find? (fun x => x.chat_id == chat) = some s := by
        have h2 := hfound
        simpa [List.find?_cons, hx] using h2
      rw [reactivateFirst, if_neg hx]
      simpa [List.find?_cons, hx] using ih hrest

/-- Helper: reactivation skips over a matchless head segment. -/
theorem reactivateFirst_append_none (l l' : List SubscriptionRow) (chat : String)
    (now : Int) (h : l.find? (fun x => x.chat_id == chat) = none) :
    reactivateFirst (l ++ l') chat now = l ++ reactivateFirst l' chat now := by
  induction l with
  | nil => rfl
  | cons a rest ih =>
    by_cases hx : (a.chat_id == chat) = true
    · simp [List.find?_cons, hx] at h
    · have hrest : rest.find? (fun x => x.chat_id == chat) = none := by
        have h2 := h
        simpa [List.find?_cons, hx] using h2
      rw [List.cons_append, reactivateFirst, if_neg hx, ih hrest, List.cons_append]

/-- Helper: reactivating twice at the same time is the same as once. -/
theorem reactivateFirst_idem (l : List SubscriptionRow) (chat : String) (now : Int) :
    reactivateFirst (reactivateFirst l chat now) chat now
      = reactivateFirst l chat now := by
  induction l with
  | nil => rfl
  | cons a rest ih =>
    by_cases hx : (a.chat_id == chat) = true
    · rw [reactivateFirst, if_pos hx, reactivateFirst, if_pos (by simpa using hx)]
    · rw [reactivateFirst, if_neg hx, reactivateFirst, if_neg hx, ih]

/-- Helper: reactivation does not touch rows of other chat ids. -/
theorem filter_ne_reactivateFirst (l : List SubscriptionRow) (chat : String)
    (now : Int) :
    (reactivateFirst l chat now).filter (fun x => !(x.chat_id == chat))
      = l.filter (fun x => !(x.chat_id == chat)) := by
  induction l with
  | nil => rfl
  | cons a rest ih =>
    by_cases hx : (a.chat_id == chat) = true
    · rw [reactivateFirst, if_pos hx, List.filter_cons, List.filter_cons]
      simp [hx]
    · rw [reactivateFirst, if_neg hx, List.filter_cons, List.filter_cons]
      simp only [hx, Bool.not_false, Bool.not_eq_true']
      simp only [Bool.not_eq_true] at hx
      simp [hx, ih]

/-- C9: subscribe is idempotent — an unknown recipient gets a fresh row
with every notify flag true and a 24-hour lead time; a known recipient's
row is reactivated with its timestamp refreshed; and subscribing twice
leaves exactly the state of subscribing once. -/
theorem C9_subscribe_idempotent (subs : List SubscriptionRow) (now : Int)
    (fresh fresh2 : Nat) (chat : String) :
    (subs.find? (fun s => s.chat_id == chat) = none →
      (subscribe_user subs now fresh chat).2
        = subs ++ [{ id := fresh, chat_id := chat, is_active := true, notify_events := true, notify_reminders := true, notify_alerts := true, hours_before := 24, created_at := now, updated_at := now }]) ∧
    (∀ s, subs.find? (fun x => x.chat_id == chat) = some s →
      ((subscribe_user subs now fresh chat).2.find? (fun x => x.chat_id == chat))
        = some { s with is_active := true, updated_at := now }) ∧
    (subscribe_user (subscribe_user subs now fresh chat).2 now fresh2 chat).2
      = (subscribe_user subs now fresh chat).2 := by
  refine ⟨?_, ?_, ?_⟩
  · intro h
    simp [subscribe_user, h, defaultSubscription]
  · intro s hs
    have hb : (subscribe_user subs now fresh chat).2 = reactivateFirst subs chat now := by
      simp [subscribe_user, hs]
    rw [hb]
    exact find?_reactivateFirst subs chat now s hs
  · cases hf : subs.find? (fun x => x.chat_id == chat) with
    | some s =>
      have hb : (subscribe_user subs now fresh chat).2 = reactivateFirst subs chat now := by
        simp [subscribe_user, hf]
      have hf2 := find?_reactivateFirst subs chat now s hf
      have hb2 : (subscribe_user (reactivateFirst subs chat now) now fresh2 chat).2
          = reactivateFirst (reactivateFirst subs chat now) chat now := by
        simp [subscribe_user, hf2]
      rw [hb, hb2]
      exact reactivateFirst_idem subs chat now
    | none =>
      have hb : (subscribe_user subs now fresh chat).2
          = subs ++ [defaultSubscription chat now fresh] := by
        simp [subscribe_user, hf]
      have hfd : (subs ++ [defaultSubscription chat now fresh]).find?
          (fun x => x.chat_id == chat) = some (defaultSubscription chat now fresh) := by
        rw [find?_append_none subs _ _ hf]
        simp [List.find?_cons, defaultSubscription]
      have hb2 : (subscribe_user (subs ++ [defaultSubscription chat now fresh])
            now fresh2 chat).2
          = reactivateFirst (subs ++ [defaultSubscription chat now fresh]) chat now := by
        simp [subscribe_user, hfd]
      rw [hb, hb2, reactivateFirst_append_none subs _ chat now hf]
      rw [reactivateFirst, if_pos (by simp [defaultSubscription])]
      simp [defaultSubscription]

/-- Witness for C9 at a concrete input: subscribing a new recipient
creates the all-flags-true default row, and subscribing again does not
change the state. -/
theorem C9_subscribe_idempotent_witness :
    (subscribe_user [] 5 1 "u").2
      = [{ id := 1, chat_id := "u", is_active := true, notify_events := true, notify_reminders := true, notify_alerts := true, hours_before := 24, created_at := 5, updated_at := 5 }] ∧
    (subscribe_user (subscribe_user [] 5 1 "u").2 5 2 "u").2
      = (subscribe_user [] 5 1 "u").2 := by
  have h := C9_subscribe_idempotent [] 5 1 2 "u"
  exact ⟨by simpa using h.1 rfl, h.2.2⟩

/-- C10: re-subscribing an existing recipient changes only `is_active`
and `updated_at`; the stored notify flags and `hours_before` preference
survive unchanged, and rows of other recipients are untouched. -/
theorem C10_resubscribe_preserves_settings (subs : List SubscriptionRow) (now : Int)
    (fresh : Nat) (chat : String) (s : SubscriptionRow)
    (hfound : subs.find? (fun x => x.chat_id == chat) = some s) :
    (∃ s', ((subscribe_user subs now fresh chat).2.find? (fun x => x.chat_id == chat))
          = some s' ∧
        s' = { s with is_active := true, updated_at := now } ∧
        s'.notify_events = s.notify_events ∧ s'.notify_reminders = s.notify_reminders ∧
        s'.notify_alerts = s.notify_alerts ∧ s'.hours_before = s.hours_before ∧
        s'.chat_id = s.chat_id ∧ s'.id = s.id ∧ s'.created_at = s.created_at ∧
        s'.is_active = true ∧ s'.updated_at = now) ∧
    (subscribe_user subs now fresh chat).2.filter (fun x => !(x.chat_id == chat))
      = subs.filter (fun x => !(x.chat_id == chat)) := by
  have hb : (subscribe_user subs now fresh chat).2 = reactivateFirst subs chat now := by
    simp [subscribe_user, hfound]
  constructor
  · refine ⟨{ s with is_active := true, updated_at := now }, ?_, rfl, rfl, rfl, rfl,
      rfl, rfl, rfl, rfl, rfl, rfl⟩
    rw [hb]
    exact find?_reactivateFirst subs chat now s hfound
  · rw [hb]
    exact filter_ne_reactivateFirst subs chat now

/-- Witness for C10 at a concrete input: re-subscribing a recipient whose
row has customized preferences keeps `hours_before = 48` and the custom
notify flags while turning `is_active` back on. -/
theorem C10_resubscribe_preserves_settings_witness :
    ∃ s', ((subscribe_user [customSubscription] 7 5 "99").2.find?
        (fun x => x.chat_id == "99")) = some s' ∧ s'.hours_before = 48 ∧
      s'.notify_events = false ∧ s'.notify_reminders = true ∧ s'.is_active = true := by
  have h := C10_resubscribe_preserves_settings [customSubscription] 7 5 "99"
    customSubscription (by decide)
  obtain ⟨s', hf, _, hne, hnr, _, hhb, _, _, _, hia, _⟩ := h.1
  exact ⟨s', hf, hhb.trans rfl, hne.trans rfl, hnr.trans rfl, hia⟩

end Bot7
